import Mathlib

/-!
Shallow embedding of the ICH_Page front-end core: the Submission Controller
(src/frontend/js/detection.js) and the Result Renderer
(src/frontend/js/results-multimodel.js).

JSON values are modelled by an inductive `Json`; JavaScript property access,
truthiness and the `||` default idiom are modelled explicitly.  Code paths
that throw in JavaScript are modelled with `Except String`.  Network and
storage are modelled as explicit inputs/outputs of the embedded functions.
-/

namespace ICHPage

/-- Structured JSON-like values, as produced by a successful `response.json()`
or `JSON.parse`.  Numbers are modelled by rationals. -/
inductive Json where
  | null
  | bool (b : Bool)
  | num (q : ℚ)
  | str (s : String)
  | arr (elems : List Json)
  | obj (fields : List (String × Json))
deriving Repr

/-- JavaScript truthiness of a JSON value (`NaN` is not representable in JSON,
so a number is falsy exactly when it is `0`). -/
def jsTruthy : Json → Bool
  | .null => false
  | .bool b => b
  | .num q => decide (q ≠ 0)
  | .str s => decide (s ≠ "")
  | .arr _ => true
  | .obj _ => true

/-- First-match lookup of a key in an object's field list. -/
def lookupField : List (String × Json) → String → Option Json
  | [], _ => none
  | (k, v) :: rest, key => if k = key then some v else lookupField rest key

/-- JavaScript property access `x.k` on a value that is neither `null` nor
`undefined`: objects yield the field (or `undefined` = `none`), primitives
yield `undefined` for the keys this code reads. -/
def jsGet : Json → String → Option Json
  | .obj fs, k => lookupField fs k
  | _, _ => none

/-- JavaScript property access `x.k` where `x` itself may be `undefined`
(`none`) or `null`, in which case the access throws a `TypeError`. -/
def jsAccess : Option Json → String → Except String (Option Json)
  | none, k => .error ("TypeError: Cannot read properties of undefined (reading " ++ k ++ ")")
  | some .null, k => .error ("TypeError: Cannot read properties of null (reading " ++ k ++ ")")
  | some (.obj fs), k => .ok (lookupField fs k)
  | some _, _ => .ok none

/-- The JavaScript default idiom `v || d`: the left operand when truthy,
otherwise the default. -/
def jsOrDefault (v : Option Json) (d : Json) : Json :=
  match v with
  | some x => if jsTruthy x then x else d
  | none => d

/-- String conversion used by template-literal interpolation and
`Error(...)` messages (`undefined` prints as "undefined", etc.). -/
def jsDisplay : Option Json → String
  | none => "undefined"
  | some .null => "null"
  | some (.bool true) => "true"
  | some (.bool false) => "false"
  | some (.num q) => toString q
  | some (.str s) => s
  | some (.arr _) => ""
  | some (.obj _) => "[object Object]"

/-- Character-list version of "needle is an initial segment of hay". -/
def leadsWith : List Char → List Char → Bool
  | _, [] => true
  | [], _ :: _ => false
  | a :: as, b :: bs => a == b && leadsWith as bs

/-- Character-list version of substring containment. -/
def containsSeq (needle : List Char) : List Char → Bool
  | [] => leadsWith [] needle
  | c :: t => leadsWith (c :: t) needle || containsSeq needle t

/-- JavaScript `hay.includes(needle)`. -/
def jsIncludes (hay needle : String) : Bool :=
  containsSeq needle.toList hay.toList

/-! ## Result Renderer (src/frontend/js/results-multimodel.js) -/

/-- The fixed backend origin (`API_URL` in both source files). -/
def API_URL : String := "http://localhost:8000"

/-- The fixed detection threshold (`DETECTION_THRESHOLD`). -/
def DETECTION_THRESHOLD : ℚ := 50

/-- One entry of `MODEL_CONFIG`. -/
structure ModelConfig where
  title : String
  badge : String
  description : String
deriving DecidableEq, Repr

/-- The `MODEL_CONFIG` object literal, as the ordered association list that
`Object.entries` iterates (all keys are non-numeric, so entries come in
declaration order).  Note there is no entry for the key "ensemble". -/
def MODEL_CONFIG : List (String × ModelConfig) :=
  [("model_a", ⟨"EfficientNet V2", "Primary", "First detection model"⟩),
   ("model_b", ⟨"ConvNext", "Secondary", "Second detection model"⟩),
   ("model_c", ⟨"Hybrid Model", "Validation", "Third detection model"⟩)]

/-- One rendered score row of a model card: the label, its confidence score,
and whether it carries the threshold-exceeded warning marker
(`isDetected = confidence >= DETECTION_THRESHOLD`). -/
structure ScoreRow where
  label : String
  score : ℚ
  marker : Bool
deriving DecidableEq, Repr

/-- The observable content of the HTML string built by `renderModelCard`:
the ensemble styling flag, the header texts, the headline state
(`detected.length > 0`), the detected-label badges, and the score rows in
rendered order. -/
structure RenderedCard where
  modelKey : String
  isEnsemble : Bool
  title : String
  badge : String
  headlineDetected : Bool
  detectedBadges : List String
  scoreRows : List ScoreRow
deriving DecidableEq, Repr

/-- The expression `modelData.detected || []`. -/
def getDetected (modelData : Json) : Json :=
  jsOrDefault (jsGet modelData "detected") (Json.arr [])

/-- The expression `modelData.confidences || {}`. -/
def getConfidences (modelData : Json) : Json :=
  jsOrDefault (jsGet modelData "confidences") (Json.obj [])

/-- Using the (defaulted) `detected` value as an array; non-array values
would make the subsequent `.length`/`.map` uses misbehave or throw, and are
modelled as a thrown `TypeError`. -/
def asArr : Json → Except String (List Json)
  | .arr xs => .ok xs
  | _ => .error "TypeError: detected is not an array"

/-- Using the (defaulted) `confidences` value with `Object.entries`:
only object values carry the label/score entries this code consumes,
other values are modelled as a thrown `TypeError`. -/
def asObjEntries : Json → Except String (List (String × Json))
  | .obj fs => .ok fs
  | _ => .error "TypeError: confidences is not an object"

/-- A confidence entry's value used in arithmetic (`b[1] - a[1]`) and
`confidence.toFixed(1)`; non-numeric scores are modelled as a thrown
`TypeError` (in the browser `toFixed` throws on non-numbers). -/
def entryScore : String × Json → Except String (String × ℚ)
  | (l, .num q) => .ok (l, q)
  | (_, _) => .error "TypeError: confidence is not a number"

/-- The `detected` list consumed by `renderModelCard`, after the `|| []`
default. -/
def detectedListOf (modelData : Json) : Except String (List Json) :=
  asArr (getDetected modelData)

/-- The `Object.entries(confidences)` list consumed by `renderModelCard`,
after the `|| {}` default, with numeric scores. -/
def confEntriesOf (modelData : Json) : Except String (List (String × ℚ)) := do
  let fs ← asObjEntries (getConfidences modelData)
  fs.mapM entryScore

/-- The relation induced by the comparator `(a, b) => b[1] - a[1]`:
`a` may stay before `b` exactly when the comparator is non-positive, i.e.
when `b.2 ≤ a.2`. -/
def confGe (a b : String × ℚ) : Prop := b.2 ≤ a.2

instance : DecidableRel confGe :=
  fun a b => inferInstanceAs (Decidable (b.2 ≤ a.2))

instance : IsTotal (String × ℚ) confGe :=
  ⟨fun a b => le_total b.2 a.2⟩

instance : IsTrans (String × ℚ) confGe :=
  ⟨fun _ _ _ hab hbc => le_trans hbc hab⟩

/-- The JavaScript stable sort `entries.sort((a, b) => b[1] - a[1])`:
elements are ordered by the comparator, ties keep the original order.
`List.insertionSort` with the comparator's relation is precisely that
stable sort. -/
def sortConfidences (entries : List (String × ℚ)) : List (String × ℚ) :=
  List.insertionSort confGe entries

/-- The `renderModelCard(modelKey, modelData, config)` function, lines
94-174 of results-multimodel.js, abstracted from HTML markup to the
`RenderedCard` content. -/
def renderModelCard (modelKey : String) (modelData : Json) (config : ModelConfig) :
    Except String RenderedCard := do
  let detected ← detectedListOf modelData
  let entries ← confEntriesOf modelData
  let sorted := sortConfidences entries
  pure
    { modelKey := modelKey
      isEnsemble := modelKey == "ensemble"
      title := config.title
      badge := config.badge
      headlineDetected := decide (0 < detected.length)
      detectedBadges := detected.map (fun l => jsDisplay (some l))
      scoreRows := sorted.map (fun e => ⟨e.1, e.2, decide (DETECTION_THRESHOLD ≤ e.2)⟩) }

/-- The loop body of `displayModelComparison` over the `MODEL_CONFIG`
entries: `predictions[modelKey]` (which throws if `predictions` is
`undefined` or `null`), the falsy check with its `console.warn` diagnostic,
and the card accumulation. -/
def renderCards (preds : Option Json) :
    List (String × ModelConfig) → Except String (List RenderedCard × List String)
  | [] => .ok ([], [])
  | (key, cfg) :: rest => do
    let modelData ← jsAccess preds key
    match modelData with
    | some v =>
      if jsTruthy v then do
        let card ← renderModelCard key v cfg
        let (cards, warns) ← renderCards preds rest
        pure (card :: cards, warns)
      else do
        let (cards, warns) ← renderCards preds rest
        pure (cards, ("No data for " ++ key) :: warns)
    | none => do
      let (cards, warns) ← renderCards preds rest
      pure (cards, ("No data for " ++ key) :: warns)

/-- The `displayModelComparison(results)` function, lines 67-89: reads
`results.predictions` and renders one card per `MODEL_CONFIG` entry whose
source result is present and truthy, collecting the skip diagnostics. -/
def displayModelComparison (results : Json) :
    Except String (List RenderedCard × List String) := do
  let preds ← jsAccess (some results) "predictions"
  renderCards preds MODEL_CONFIG

/-- The `displayImages(results)` function, lines 56-62: the two image
source URLs that get bound. -/
def displayImages (results : Json) : Except String (String × String) := do
  let o ← jsAccess (some results) "original_image"
  let p ← jsAccess (some results) "processed_image"
  pure (API_URL ++ jsDisplay o, API_URL ++ jsDisplay p)

/-- The outcome of `sessionStorage.getItem("detectionResult")` followed by
`JSON.parse`: the slot may be absent (`getItem` returns `null`), present
but not valid JSON (`JSON.parse` throws with some message), or present and
parsed to a JSON value.  `JSON.parse` itself is a browser primitive, so its
outcome is an input of the embedding. -/
inductive StoredSlot where
  | absent
  | unparseable (msg : String)
  | parsed (j : Json)

/-- The observable outcome of the results page `init`: alerts raised,
redirect performed (if any), whether/what the image-binding step rendered,
and whether/what the comparison step rendered. -/
structure InitResult where
  alerts : List String
  redirect : Option String
  imagesRendered : Option (String × String)
  comparisonRendered : Option (List RenderedCard × List String)
deriving DecidableEq, Repr

/-- The alert text of `init` when the slot is absent. -/
def noResultsAlert : String := "No detection results found. Please upload a DICOM file first."

/-- The alert text of the `catch` branch of `init`. -/
def loadErrorAlert : String := "Error loading results. Please try again."

/-- The `init()` function of results-multimodel.js, lines 31-51: absent
slot alerts and redirects; a parse failure is caught, alerts and
redirects; otherwise `displayImages` runs first, then
`displayModelComparison`, and any exception from either is caught by the
same alert-and-redirect handler. -/
def resultsInit : StoredSlot → InitResult
  | .absent =>
    { alerts := [noResultsAlert], redirect := some "detection.html"
      imagesRendered := none, comparisonRendered := none }
  | .unparseable _ =>
    { alerts := [loadErrorAlert], redirect := some "detection.html"
      imagesRendered := none, comparisonRendered := none }
  | .parsed j =>
    match displayImages j with
    | .error _ =>
      { alerts := [loadErrorAlert], redirect := some "detection.html"
        imagesRendered := none, comparisonRendered := none }
    | .ok imgs =>
      match displayModelComparison j with
      | .error _ =>
        { alerts := [loadErrorAlert], redirect := some "detection.html"
          imagesRendered := some imgs, comparisonRendered := none }
      | .ok comp =>
        { alerts := [], redirect := none
          imagesRendered := some imgs, comparisonRendered := some comp }

/-! ## Submission Controller (src/frontend/js/detection.js) -/

/-- The name and byte size of a user-chosen file (the `File` attributes the
controller reads). -/
structure FileInfo where
  name : String
  size : ℕ
deriving DecidableEq, Repr

/-- The page-lifetime state the controller mutates: the module-scoped
`selectedFile`, the file-name display text, the run button's disabled
flag, the loading overlay, and the session-storage slot under the fixed
key "detectionResult".  The slot is modelled at the JSON-value level:
`JSON.parse ∘ JSON.stringify` is the identity on structured values, so the
stored string is represented by the value it deserializes to. -/
structure DetectionState where
  selectedFile : Option FileInfo
  fileNameText : String
  runButtonDisabled : Bool
  loadingActive : Bool
  storedResult : Option Json

/-- The `maxSize` constant of `validateAndDisplayFile`: 50 MiB in bytes. -/
def maxSize : ℕ := 50 * 1024 * 1024

/-- Character-level version of "the string ends with the given tail". -/
def endsInChars (s tail : List Char) : Bool :=
  leadsWith s.reverse tail.reverse

/-- The extension check `file.name.toLowerCase().endsWith(".dcm")`,
expressed on the lower-cased character sequence. -/
def validDcmName (name : String) : Bool :=
  endsInChars (name.toList.map Char.toLower) ".dcm".toList

/-- The result of one `validateAndDisplayFile` call: the new state and the
alerts raised. -/
structure SelectResult where
  state : DetectionState
  alerts : List String

/-- The `validateAndDisplayFile(file)` function, lines 82-106: extension
check first, then the 50 MiB size check; either failure alerts and returns
with the state untouched; success stores the file, reflects its name and
enables the run button. -/
def validateAndDisplayFile (s : DetectionState) (file : FileInfo) : SelectResult :=
  if !validDcmName file.name then
    { state := s, alerts := ["Please select a DICOM (.dcm) file"] }
  else if file.size > maxSize then
    { state := s, alerts := ["File size exceeds 50 MB limit"] }
  else
    { state := { s with
        selectedFile := some file
        fileNameText := "Selected: " ++ file.name
        runButtonDisabled := false }
      alerts := [] }

/-- The environment's answer to the single `fetch` of `runDetection`:
either the promise rejects (network-level failure, with the rejection
error's message), or a response arrives with its `ok` flag and the outcome
of `response.json()` (a parse-error message, or the parsed JSON body). -/
inductive FetchOutcome where
  | networkError (msg : String)
  | response (ok : Bool) (body : Except String Json)

/-- The result of one `runDetection` call: the final state, whether the
fetch was issued, the alerts raised, and the navigations performed. -/
structure RunOutput where
  state : DetectionState
  fetchIssued : Bool
  alerts : List String
  navigations : List String

/-- The fixed first sentence of every catch-branch alert in
`runDetection`. -/
def genericErrorLead : String := "An error occurred during detection. "

/-- The backend-reachability guidance appended when the caught error's
message contains "Failed to fetch". -/
def backendHint : String := "Please ensure the backend server is running on http://localhost:8000"

/-- The alert text built by the `catch` block of `runDetection` from the
caught error's message, lines 169-179. -/
def catchMessage (m : String) : String :=
  genericErrorLead ++ (if jsIncludes m "Failed to fetch" then backendHint else m)

/-- The `runDetection()` function, lines 125-181, as a function of the
state and of the environment's fetch outcome.  With no selected file it
alerts and returns without fetching.  Otherwise the button is disabled and
the overlay raised, the fetch is issued, and: a non-ok response has its
body parsed and `errorData.detail || "Prediction failed"` thrown; an ok
response has its body parsed, stored under "detectionResult" and followed
by one navigation to results.html (overlay left active); every thrown
error (network failure, body-parse failure, or the detail) reaches the
catch block, which hides the overlay, re-enables the button and alerts
`catchMessage`. -/
def runDetection (s : DetectionState) (outcome : FetchOutcome) : RunOutput :=
  match s.selectedFile with
  | none =>
    { state := s, fetchIssued := false
      alerts := ["Please select a DICOM file"], navigations := [] }
  | some _ =>
    let s1 : DetectionState := { s with runButtonDisabled := true, loadingActive := true }
    let failWith : String → RunOutput := fun m =>
      { state := { s1 with loadingActive := false, runButtonDisabled := false }
        fetchIssued := true, alerts := [catchMessage m], navigations := [] }
    match outcome with
    | .networkError m => failWith m
    | .response ok body =>
      if ok then
        match body with
        | .ok result =>
          { state := { s1 with storedResult := some result }
            fetchIssued := true, alerts := [], navigations := ["results.html"] }
        | .error m => failWith m
      else
        match body with
        | .error m => failWith m
        | .ok errorData =>
          match jsAccess (some errorData) "detail" with
          | .error m => failWith m
          | .ok d => failWith (jsDisplay (some (jsOrDefault d (Json.str "Prediction failed"))))

/-! ## Helper lemmas about the stable sort -/

/-- Inserting an element whose score is `v` prepends it to the
score-`v` sublist: every element it is inserted past has a strictly
larger score. -/
theorem orderedInsert_filter_eq_score (p : String × ℚ) (v : ℚ) (hp : p.2 = v) :
    ∀ l : List (String × ℚ),
      (List.orderedInsert confGe p l).filter (fun q => decide (q.2 = v)) =
        p :: l.filter (fun q => decide (q.2 = v))
  | [] => by simp [List.orderedInsert, hp]
  | b :: l => by
    by_cases hb : confGe p b
    · simp [List.orderedInsert, hb, hp]
    · have hbv : ¬(b.2 = v) := fun h =>
        hb (show b.2 ≤ p.2 from le_of_eq (h.trans hp.symm))
      simp [List.orderedInsert, hb, hbv, orderedInsert_filter_eq_score p v hp l]

/-- Inserting an element whose score is not `v` leaves the score-`v`
sublist unchanged. -/
theorem orderedInsert_filter_ne_score (p : String × ℚ) (v : ℚ) (hp : p.2 ≠ v) :
    ∀ l : List (String × ℚ),
      (List.orderedInsert confGe p l).filter (fun q => decide (q.2 = v)) =
        l.filter (fun q => decide (q.2 = v))
  | [] => by simp [List.orderedInsert, hp]
  | b :: l => by
    by_cases hb : confGe p b
    · simp [List.orderedInsert, hb, hp]
    · simp only [List.orderedInsert, if_neg hb, List.filter_cons]
      rw [orderedInsert_filter_ne_score p v hp l]

/-- Stability of the confidence sort: for every score value, the sublist of
entries carrying that score is unchanged, so ties keep their original
insertion order. -/
theorem sortConfidences_filter (v : ℚ) :
    ∀ l : List (String × ℚ),
      (sortConfidences l).filter (fun q => decide (q.2 = v)) =
        l.filter (fun q => decide (q.2 = v))
  | [] => rfl
  | p :: l => by
    by_cases hp : p.2 = v
    · rw [sortConfidences, List.insertionSort,
        orderedInsert_filter_eq_score p v hp, ← sortConfidences, sortConfidences_filter v l]
      simp [hp]
    · rw [sortConfidences, List.insertionSort,
        orderedInsert_filter_ne_score p v hp, ← sortConfidences, sortConfidences_filter v l]
      simp [hp]

/-- The confidence sort yields a list in descending score order. -/
theorem sortConfidences_sorted (l : List (String × ℚ)) :
    (sortConfidences l).Pairwise (fun a b => b.2 ≤ a.2) :=
  List.sorted_insertionSort confGe l

/-! ## Concrete sample inputs used by witnesses and counterexamples -/

/-- A state in which a valid file has already been selected. -/
def sampleState : DetectionState :=
  { selectedFile := some ⟨"scan.dcm", 1000⟩
    fileNameText := "Selected: scan.dcm"
    runButtonDisabled := false
    loadingActive := false
    storedResult := none }

/-- An empty initial controller state (page just loaded). -/
def emptyState : DetectionState :=
  { selectedFile := none
    fileNameText := ""
    runButtonDisabled := true
    loadingActive := false
    storedResult := none }

/-! ## Claim theorems -/

/-- C3: Select rejects every file without the .dcm extension and every file
over 50 MiB (regardless of extension), leaving the state — in particular
the previously selected file and the run-button flag — unchanged on
rejection; and accepts every .dcm file of at most 50 MiB, storing it as the
selected file and enabling the run button. -/
theorem claim3_select_validation (s : DetectionState) (f : FileInfo) :
    (validDcmName f.name = false →
      validateAndDisplayFile s f =
        { state := s, alerts := ["Please select a DICOM (.dcm) file"] }) ∧
    (f.size > maxSize →
      (validateAndDisplayFile s f).state = s ∧
      (validateAndDisplayFile s f).alerts ≠ []) ∧
    (validDcmName f.name = true → f.size ≤ maxSize →
      validateAndDisplayFile s f =
        { state := { s with
            selectedFile := some f
            fileNameText := "Selected: " ++ f.name
            runButtonDisabled := false }
          alerts := [] }) := by
  refine ⟨?_, ?_, ?_⟩
  · intro h
    simp [validateAndDisplayFile, h]
  · intro h
    by_cases hn : validDcmName f.name
    · simp [validateAndDisplayFile, hn, h]
    · simp [validateAndDisplayFile, hn]
  · intro hn hs
    simp [validateAndDisplayFile, hn, Nat.not_lt.mpr hs]

/-- Witness for C3 at concrete files: a .txt file is rejected with the
state unchanged, an oversized .dcm file is rejected with the state
unchanged, and a small .dcm file is accepted and enables submission. -/
theorem claim3_select_validation_witness :
    (validateAndDisplayFile emptyState ⟨"notes.txt", 10⟩ =
      { state := emptyState, alerts := ["Please select a DICOM (.dcm) file"] }) ∧
    ((validateAndDisplayFile emptyState ⟨"scan.dcm", 52428801⟩).state = emptyState ∧
     (validateAndDisplayFile emptyState ⟨"scan.dcm", 52428801⟩).alerts ≠ []) ∧
    (validateAndDisplayFile emptyState ⟨"scan.dcm", 1000⟩ =
      { state := { emptyState with
          selectedFile := some ⟨"scan.dcm", 1000⟩
          fileNameText := "Selected: scan.dcm"
          runButtonDisabled := false }
        alerts := [] }) :=
  ⟨(claim3_select_validation emptyState ⟨"notes.txt", 10⟩).1 (by decide),
   (claim3_select_validation emptyState ⟨"scan.dcm", 52428801⟩).2.1 (by decide),
   (claim3_select_validation emptyState ⟨"scan.dcm", 1000⟩).2.2 (by decide) (by decide)⟩

/-- C4: Submit with no selected file raises the no-file-selected alert,
issues no fetch, performs no navigation, and leaves the whole state — in
particular the storage slot — unchanged, whatever the environment would
have answered. -/
theorem claim4_no_file_no_fetch (s : DetectionState) (outcome : FetchOutcome)
    (h : s.selectedFile = none) :
    runDetection s outcome =
      { state := s, fetchIssued := false
        alerts := ["Please select a DICOM file"], navigations := [] } := by
  unfold runDetection
  rw [h]

/-- Witness for C4 on the empty initial state. -/
theorem claim4_no_file_no_fetch_witness :
    runDetection emptyState (.response true (.ok (Json.obj []))) =
      { state := emptyState, fetchIssued := false
        alerts := ["Please select a DICOM file"], navigations := [] } :=
  claim4_no_file_no_fetch emptyState (.response true (.ok (Json.obj []))) rfl

/-- C5: on a successful response with parsed body `result`, Submit stores
`result` in the session slot (the stored string deserializes to exactly the
response body) and navigates exactly once, to results.html. -/
theorem claim5_success_persists_and_navigates (s : DetectionState) (f : FileInfo)
    (result : Json) (hf : s.selectedFile = some f) :
    (runDetection s (.response true (.ok result))).state.storedResult = some result ∧
    (runDetection s (.response true (.ok result))).navigations = ["results.html"] ∧
    (runDetection s (.response true (.ok result))).fetchIssued = true := by
  unfold runDetection
  rw [hf]
  exact ⟨rfl, rfl, rfl⟩

/-- Witness for C5: a concrete prediction payload is stored verbatim and
followed by the single navigation. -/
theorem claim5_success_persists_and_navigates_witness :
    (runDetection sampleState (.response true (.ok (Json.obj
        [("predictions", Json.obj [])])))).state.storedResult =
      some (Json.obj [("predictions", Json.obj [])]) ∧
    (runDetection sampleState (.response true (.ok (Json.obj
        [("predictions", Json.obj [])])))).navigations = ["results.html"] ∧
    (runDetection sampleState (.response true (.ok (Json.obj
        [("predictions", Json.obj [])])))).fetchIssued = true :=
  claim5_success_persists_and_navigates sampleState ⟨"scan.dcm", 1000⟩
    (Json.obj [("predictions", Json.obj [])]) rfl

/-- Reduction of `runDetection` for a rejected fetch: the catch block runs
on the rejection message. -/
theorem runDetection_network_eq (s : DetectionState) (f : FileInfo)
    (hf : s.selectedFile = some f) (m : String) :
    runDetection s (.networkError m) =
      { state := { s with runButtonDisabled := false, loadingActive := false }
        fetchIssued := true, alerts := [catchMessage m], navigations := [] } := by
  unfold runDetection
  rw [hf]

/-- Reduction of `runDetection` for an ok response whose body fails to
parse: the catch block runs on the parse error's message. -/
theorem runDetection_ok_badbody_eq (s : DetectionState) (f : FileInfo)
    (hf : s.selectedFile = some f) (m : String) :
    runDetection s (.response true (.error m)) =
      { state := { s with runButtonDisabled := false, loadingActive := false }
        fetchIssued := true, alerts := [catchMessage m], navigations := [] } := by
  unfold runDetection
  rw [hf]
  rfl

/-- Reduction of `runDetection` for a non-ok response whose body fails to
parse: the catch block runs on the parse error's message. -/
theorem runDetection_err_badbody_eq (s : DetectionState) (f : FileInfo)
    (hf : s.selectedFile = some f) (m : String) :
    runDetection s (.response false (.error m)) =
      { state := { s with runButtonDisabled := false, loadingActive := false }
        fetchIssued := true, alerts := [catchMessage m], navigations := [] } := by
  unfold runDetection
  rw [hf]
  rfl

/-- Reduction of `runDetection` for a non-ok response whose body parses to
an object: the thrown message is the detail field defaulted to
"Prediction failed". -/
theorem runDetection_err_obj_eq (s : DetectionState) (f : FileInfo)
    (hf : s.selectedFile = some f) (fields : List (String × Json)) :
    runDetection s (.response false (.ok (Json.obj fields))) =
      { state := { s with runButtonDisabled := false, loadingActive := false }
        fetchIssued := true
        alerts := [catchMessage (jsDisplay (some (jsOrDefault
          (lookupField fields "detail") (Json.str "Prediction failed"))))]
        navigations := [] } := by
  unfold runDetection
  rw [hf]
  rfl

/-- C2 counterexample: for the error response with body {"detail": "X"},
the user-visible message is the fixed lead sentence followed by X, which is
not equal to X, so the claim that the message equals the detail verbatim is
false. -/
theorem claim2_detail_not_verbatim :
    (runDetection sampleState
        (.response false (.ok (Json.obj [("detail", Json.str "X")])))).alerts =
      ["An error occurred during detection. X"] ∧
    "An error occurred during detection. X" ≠ "X" := by
  refine ⟨rfl, ?_⟩
  decide

/-- C2 as amended: for an HTTP error response whose body carries a
non-empty detail string (not itself containing "Failed to fetch"), the
alert is the fixed lead sentence followed by that detail; for an error
response whose parsed body has no detail field, the alert is the lead
followed by the generic "Prediction failed"; for an error response whose
body fails to parse, the alert is the lead followed by the parse error's
message; in all three cases the loading overlay is cleared and the run
button re-enabled. -/
theorem claim2_error_message_construction (s : DetectionState) (f : FileInfo)
    (hf : s.selectedFile = some f) :
    (∀ detail : String, detail ≠ "" → jsIncludes detail "Failed to fetch" = false →
      (runDetection s (.response false (.ok (Json.obj [("detail", Json.str detail)])))).alerts =
          [genericErrorLead ++ detail] ∧
      (runDetection s (.response false (.ok (Json.obj [("detail", Json.str detail)])))).state.loadingActive = false ∧
      (runDetection s (.response false (.ok (Json.obj [("detail", Json.str detail)])))).state.runButtonDisabled = false) ∧
    (∀ fields : List (String × Json), lookupField fields "detail" = none →
      (runDetection s (.response false (.ok (Json.obj fields)))).alerts =
          [genericErrorLead ++ "Prediction failed"] ∧
      (runDetection s (.response false (.ok (Json.obj fields)))).state.loadingActive = false ∧
      (runDetection s (.response false (.ok (Json.obj fields)))).state.runButtonDisabled = false) ∧
    (∀ m : String, jsIncludes m "Failed to fetch" = false →
      (runDetection s (.response false (.error m))).alerts = [genericErrorLead ++ m] ∧
      (runDetection s (.response false (.error m))).state.loadingActive = false ∧
      (runDetection s (.response false (.error m))).state.runButtonDisabled = false) := by
  refine ⟨?_, ?_, ?_⟩
  · intro detail hne hni
    rw [runDetection_err_obj_eq s f hf]
    have h1 : lookupField [("detail", Json.str detail)] "detail" = some (Json.str detail) := by
      simp [lookupField]
    have h2 : jsTruthy (Json.str detail) = true := by
      simp [jsTruthy, hne]
    have h3 : catchMessage detail = genericErrorLead ++ detail := by
      simp [catchMessage, hni]
    rw [h1]
    simp only [jsOrDefault, h2, if_true, jsDisplay, h3]
    exact ⟨by simp, by simp, by simp⟩
  · intro fields hnone
    rw [runDetection_err_obj_eq s f hf, hnone]
    have h3 : catchMessage "Prediction failed" = genericErrorLead ++ "Prediction failed" := by
      simp [catchMessage]
      decide
    simp only [jsOrDefault, jsDisplay, h3]
    exact ⟨by simp, by simp, by simp⟩
  · intro m hni
    rw [runDetection_err_badbody_eq s f hf]
    have h3 : catchMessage m = genericErrorLead ++ m := by
      simp [catchMessage, hni]
    simp only [h3]
    exact ⟨by simp, by simp, by simp⟩

/-- Witness for the amended C2 at concrete inputs for all three cases. -/
theorem claim2_error_message_construction_witness :
    ((runDetection sampleState
        (.response false (.ok (Json.obj [("detail", Json.str "File is not a DICOM")])))).alerts =
      [genericErrorLead ++ "File is not a DICOM"] ∧
     (runDetection sampleState
        (.response false (.ok (Json.obj [("detail", Json.str "File is not a DICOM")])))).state.loadingActive = false ∧
     (runDetection sampleState
        (.response false (.ok (Json.obj [("detail", Json.str "File is not a DICOM")])))).state.runButtonDisabled = false) ∧
    ((runDetection sampleState (.response false (.ok (Json.obj [])))).alerts =
      [genericErrorLead ++ "Prediction failed"] ∧
     (runDetection sampleState (.response false (.ok (Json.obj [])))).state.loadingActive = false ∧
     (runDetection sampleState (.response false (.ok (Json.obj [])))).state.runButtonDisabled = false) ∧
    ((runDetection sampleState (.response false (.error "Unexpected token <"))).alerts =
      [genericErrorLead ++ "Unexpected token <"] ∧
     (runDetection sampleState (.response false (.error "Unexpected token <"))).state.loadingActive = false ∧
     (runDetection sampleState (.response false (.error "Unexpected token <"))).state.runButtonDisabled = false) :=
  ⟨(claim2_error_message_construction sampleState ⟨"scan.dcm", 1000⟩ rfl).1
      "File is not a DICOM" (by decide) (by decide),
   (claim2_error_message_construction sampleState ⟨"scan.dcm", 1000⟩ rfl).2.1 [] rfl,
   (claim2_error_message_construction sampleState ⟨"scan.dcm", 1000⟩ rfl).2.2
      "Unexpected token <" (by decide)⟩

/-- C9 counterexample: an ok-status response whose body fails to parse is
reported with the lead sentence plus the parse error's message, which does
not contain the expected service location, so the claim that such
transport errors carry backend-reachability guidance is false. -/
theorem claim9_unparseable_body_no_guidance :
    (runDetection sampleState
        (.response true (.error "Unexpected end of JSON input"))).alerts =
      ["An error occurred during detection. Unexpected end of JSON input"] ∧
    jsIncludes "An error occurred during detection. Unexpected end of JSON input"
      "http://localhost:8000" = false := by
  exact ⟨rfl, by decide⟩

/-- C9 as amended: a rejected fetch whose error message contains "Failed to
fetch" is reported with the lead sentence plus the backend-reachability
guidance, which contains the expected service location, and submission is
reset to retryable; an ok-status response with an unparseable body is
reported with the lead sentence plus the parse error's message (no
reachability guidance) and submission is likewise reset to retryable. -/
theorem claim9_transport_error_handling (s : DetectionState) (f : FileInfo)
    (hf : s.selectedFile = some f) :
    (∀ m : String, jsIncludes m "Failed to fetch" = true →
      (runDetection s (.networkError m)).alerts = [genericErrorLead ++ backendHint] ∧
      jsIncludes (genericErrorLead ++ backendHint) API_URL = true ∧
      (runDetection s (.networkError m)).state.loadingActive = false ∧
      (runDetection s (.networkError m)).state.runButtonDisabled = false) ∧
    (∀ m : String, jsIncludes m "Failed to fetch" = false →
      (runDetection s (.response true (.error m))).alerts = [genericErrorLead ++ m] ∧
      (runDetection s (.response true (.error m))).state.loadingActive = false ∧
      (runDetection s (.response true (.error m))).state.runButtonDisabled = false) := by
  constructor
  · intro m hm
    rw [runDetection_network_eq s f hf]
    have h3 : catchMessage m = genericErrorLead ++ backendHint := by
      simp [catchMessage, hm]
    simp only [h3]
    exact ⟨by simp, by decide, by simp, by simp⟩
  · intro m hm
    rw [runDetection_ok_badbody_eq s f hf]
    have h3 : catchMessage m = genericErrorLead ++ m := by
      simp [catchMessage, hm]
    simp only [h3]
    exact ⟨by simp, by simp, by simp⟩

/-- Witness for the amended C9 at concrete inputs for both cases. -/
theorem claim9_transport_error_handling_witness :
    ((runDetection sampleState (.networkError "Failed to fetch")).alerts =
        [genericErrorLead ++ backendHint] ∧
     jsIncludes (genericErrorLead ++ backendHint) API_URL = true ∧
     (runDetection sampleState (.networkError "Failed to fetch")).state.loadingActive = false ∧
     (runDetection sampleState (.networkError "Failed to fetch")).state.runButtonDisabled = false) ∧
    ((runDetection sampleState (.response true (.error "Unexpected token <"))).alerts =
        [genericErrorLead ++ "Unexpected token <"] ∧
     (runDetection sampleState (.response true (.error "Unexpected token <"))).state.loadingActive = false ∧
     (runDetection sampleState (.response true (.error "Unexpected token <"))).state.runButtonDisabled = false) :=
  ⟨(claim9_transport_error_handling sampleState ⟨"scan.dcm", 1000⟩ rfl).1
      "Failed to fetch" (by decide),
   (claim9_transport_error_handling sampleState ⟨"scan.dcm", 1000⟩ rfl).2
      "Unexpected token <" (by decide)⟩

/-! ## Helper lemmas for the Result Renderer theorems -/

/-- Elimination of a successful `Except` bind. -/
theorem exceptBind_eq_ok {α β : Type} {x : Except String α} {f : α → Except String β}
    {b : β} (h : x >>= f = Except.ok b) :
    ∃ a, x = Except.ok a ∧ f a = Except.ok b := by
  cases x with
  | error e => exact absurd h (by simp [Bind.bind, Except.bind])
  | ok a => exact ⟨a, rfl, by simpa [Bind.bind, Except.bind] using h⟩

/-- Characterization of a successful `renderModelCard`: the card is built
from the extracted detected list and confidence entries. -/
theorem renderModelCard_ok_elim {key : String} {d : Json} {cfg : ModelConfig}
    {card : RenderedCard} (h : renderModelCard key d cfg = .ok card) :
    ∃ detected entries,
      detectedListOf d = .ok detected ∧ confEntriesOf d = .ok entries ∧
      card =
        { modelKey := key
          isEnsemble := key == "ensemble"
          title := cfg.title
          badge := cfg.badge
          headlineDetected := decide (0 < detected.length)
          detectedBadges := detected.map (fun l => jsDisplay (some l))
          scoreRows := (sortConfidences entries).map
            (fun e => ⟨e.1, e.2, decide (DETECTION_THRESHOLD ≤ e.2)⟩) } := by
  unfold renderModelCard at h
  obtain ⟨detected, hdl, h⟩ := exceptBind_eq_ok h
  obtain ⟨entries, hen, h⟩ := exceptBind_eq_ok h
  refine ⟨detected, entries, hdl, hen, ?_⟩
  simpa [pure, Except.pure] using h.symm

/-- A field that is absent or carries a JavaScript-falsy value, the guard
of the `||` defaults in `renderModelCard`. -/
def fieldMissingOrFalsy (d : Json) (k : String) : Bool :=
  match jsGet d k with
  | none => true
  | some v => !jsTruthy v

/-- The `||` default fires exactly on a missing or falsy field. -/
theorem jsOrDefault_of_missingOrFalsy (d : Json) (k : String) (dflt : Json)
    (h : fieldMissingOrFalsy d k = true) :
    jsOrDefault (jsGet d k) dflt = dflt := by
  unfold fieldMissingOrFalsy at h
  unfold jsOrDefault
  cases hv : jsGet d k with
  | none => rfl
  | some v =>
    rw [hv] at h
    simp only [Bool.not_eq_true'] at h
    simp [h]

/-! ## Concrete renderer inputs -/

/-- The first `MODEL_CONFIG` entry. -/
def modelAConfig : ModelConfig := ⟨"EfficientNet V2", "Primary", "First detection model"⟩

/-- A well-formed Source Result used as every source's entry in the C1
payload. -/
def predictionSource : Json := Json.obj
  [("detected", Json.arr [Json.str "Epidural"]),
   ("confidences", Json.obj [("Epidural", Json.num 81)])]

/-- The C1 predictions mapping: all four declared source keys present, with
"ensemble" listed first (key order deliberately different from the
declared render order). -/
def c1Predictions : Json := Json.obj
  [("ensemble", predictionSource), ("model_c", predictionSource),
   ("model_b", predictionSource), ("model_a", predictionSource)]

/-- A complete C1 Prediction Payload. -/
def c1Payload : Json := Json.obj
  [("original_image", Json.str "/img/o.png"),
   ("processed_image", Json.str "/img/p.png"),
   ("predictions", c1Predictions)]

/-- The card rendered for `predictionSource` under the given header. -/
def c1Card (key title badge : String) : RenderedCard :=
  { modelKey := key, isEnsemble := false, title := title, badge := badge
    headlineDetected := true, detectedBadges := ["Epidural"]
    scoreRows := [⟨"Epidural", 81, true⟩] }

/-- The C6 Source Result with confidences A: 72.0, B: 91.5, C: 40.0. -/
def c6Data : Json := Json.obj
  [("confidences", Json.obj
    [("A", Json.num 72), ("B", Json.num (91.5 : ℚ)), ("C", Json.num 40)])]

/-- The card rendered for `c6Data`: order B, A, C; B and A marked, C not. -/
def c6Card : RenderedCard :=
  { modelKey := "model_a", isEnsemble := false
    title := "EfficientNet V2", badge := "Primary"
    headlineDetected := false, detectedBadges := []
    scoreRows := [⟨"B", (91.5 : ℚ), true⟩, ⟨"A", 72, true⟩, ⟨"C", 40, false⟩] }

/-- The C7 Source Result: empty detected list but a confidence above the
threshold. -/
def c7Data : Json := Json.obj
  [("detected", Json.arr []),
   ("confidences", Json.obj [("Epidural", Json.num 80)])]

/-- The card rendered for `c7Data`: headline not detected although the one
score row is marked. -/
def c7Card : RenderedCard :=
  { modelKey := "model_a", isEnsemble := false
    title := "EfficientNet V2", badge := "Primary"
    headlineDetected := false, detectedBadges := []
    scoreRows := [⟨"Epidural", 80, true⟩] }

/-- A second C7 Source Result with the same detected field but different
confidences. -/
def c7Data2 : Json := Json.obj [("detected", Json.arr [])]

/-- The card rendered for `c7Data2`. -/
def c7Card2 : RenderedCard :=
  { modelKey := "model_a", isEnsemble := false
    title := "EfficientNet V2", badge := "Primary"
    headlineDetected := false, detectedBadges := []
    scoreRows := [] }

/-- Decidable equality on render outcomes, for evaluating concrete cards. -/
instance : DecidableEq (Except String RenderedCard) := fun a b =>
  match a, b with
  | .error x, .error y =>
    match decEq x y with
    | isTrue h => isTrue (h ▸ rfl)
    | isFalse h => isFalse (fun hc => h (by injection hc))
  | .ok x, .ok y =>
    match decEq x y with
    | isTrue h => isTrue (h ▸ rfl)
    | isFalse h => isFalse (fun hc => h (by injection hc))
  | .error _, .ok _ => isFalse (fun hc => Except.noConfusion hc)
  | .ok _, .error _ => isFalse (fun hc => Except.noConfusion hc)

/-- C1 (code bug): on a payload whose predictions mapping contains all four
declared source keys — with "ensemble" even listed first — the comparison
renders exactly the three model cards in the fixed declared order, with no
skip diagnostic; the present, truthy ensemble entry is never rendered,
because `MODEL_CONFIG` has no "ensemble" entry, although the loop's own
comment and the ensemble branch of `renderModelCard` say it should be. -/
theorem claim1_ensemble_never_rendered :
    jsGet c1Predictions "ensemble" = some predictionSource ∧
    jsTruthy predictionSource = true ∧
    displayModelComparison c1Payload =
      .ok ([c1Card "model_a" "EfficientNet V2" "Primary",
            c1Card "model_b" "ConvNext" "Secondary",
            c1Card "model_c" "Hybrid Model" "Validation"], []) :=
  ⟨rfl, rfl, rfl⟩

/-- C6: the score rows of every successfully rendered card are the
confidence entries sorted by descending score — the sort is stable (for
each score value the sublist of entries carrying it is preserved) — and a
row carries the threshold marker exactly when its score is at least 50;
moreover, on the confidences A: 72.0, B: 91.5, C: 40.0 the rendered order
is B, A, C with B and A marked and C unmarked. -/
theorem claim6_scores_sorted_stable_marked :
    (∀ (key : String) (d : Json) (cfg : ModelConfig) (card : RenderedCard)
        (entries : List (String × ℚ)),
      renderModelCard key d cfg = .ok card →
      confEntriesOf d = .ok entries →
      card.scoreRows = (sortConfidences entries).map
          (fun e => ⟨e.1, e.2, decide (DETECTION_THRESHOLD ≤ e.2)⟩) ∧
      card.scoreRows.Pairwise (fun a b => b.score ≤ a.score) ∧
      (∀ v : ℚ, (card.scoreRows.map (fun row => (row.label, row.score))).filter
            (fun q => decide (q.2 = v)) =
          entries.filter (fun q => decide (q.2 = v))) ∧
      (∀ row ∈ card.scoreRows, row.marker = decide (DETECTION_THRESHOLD ≤ row.score))) ∧
    renderModelCard "model_a" c6Data modelAConfig = .ok c6Card := by
  constructor
  · intro key d cfg card entries h hen
    obtain ⟨detected, entries', _, hen', hcard⟩ := renderModelCard_ok_elim h
    rw [hen] at hen'
    injection hen' with hents
    subst hents
    subst hcard
    refine ⟨rfl, ?_, ?_, ?_⟩
    · rw [List.pairwise_map]
      exact (sortConfidences_sorted entries).imp (fun h => h)
    · intro v
      rw [List.map_map]
      have hid : ((fun (row : ScoreRow) => (row.label, row.score)) ∘
          (fun (e : String × ℚ) => (⟨e.1, e.2, decide (DETECTION_THRESHOLD ≤ e.2)⟩ : ScoreRow))) =
          id := by
        funext e
        rfl
      rw [hid, List.map_id]
      exact sortConfidences_filter v entries
    · intro row hrow
      obtain ⟨e, _, rfl⟩ := List.mem_map.mp hrow
      rfl
  · have h915 : (91.5 : ℚ) = (⟨183, 2, by decide, by decide⟩ : ℚ) := by
      rw [Rat.mk'_eq_divInt, Rat.divInt_eq_div]
      norm_num
    simp only [c6Data, c6Card, h915]
    decide

/-- Witness for C6 at the spec's concrete confidences. -/
theorem claim6_scores_sorted_stable_marked_witness :
    c6Card.scoreRows = (sortConfidences [("A", 72), ("B", (91.5 : ℚ)), ("C", 40)]).map
        (fun e => ⟨e.1, e.2, decide (DETECTION_THRESHOLD ≤ e.2)⟩) ∧
    c6Card.scoreRows.Pairwise (fun a b => b.score ≤ a.score) ∧
    (∀ v : ℚ, (c6Card.scoreRows.map (fun row => (row.label, row.score))).filter
          (fun q => decide (q.2 = v)) =
        ([("A", 72), ("B", (91.5 : ℚ)), ("C", 40)] : List (String × ℚ)).filter
          (fun q => decide (q.2 = v))) ∧
    (∀ row ∈ c6Card.scoreRows, row.marker = decide (DETECTION_THRESHOLD ≤ row.score)) :=
  claim6_scores_sorted_stable_marked.1 "model_a" c6Data modelAConfig c6Card
    [("A", 72), ("B", (91.5 : ℚ)), ("C", 40)]
    claim6_scores_sorted_stable_marked.2 rfl

/-- C7: the headline state of every successfully rendered card is detected
exactly when the extracted detected list is non-empty; it depends only on
the raw detected field (two sources with the same detected field render
the same headline whatever their confidences); and on `c7Data` the
headline is not-detected although the score row is threshold-marked. -/
theorem claim7_headline_from_detected_only :
    (∀ (key : String) (d : Json) (cfg : ModelConfig) (card : RenderedCard)
        (detected : List Json),
      renderModelCard key d cfg = .ok card →
      detectedListOf d = .ok detected →
      card.headlineDetected = decide (0 < detected.length)) ∧
    (∀ (key1 key2 : String) (d1 d2 : Json) (cfg1 cfg2 : ModelConfig)
        (card1 card2 : RenderedCard),
      renderModelCard key1 d1 cfg1 = .ok card1 →
      renderModelCard key2 d2 cfg2 = .ok card2 →
      jsGet d1 "detected" = jsGet d2 "detected" →
      card1.headlineDetected = card2.headlineDetected) ∧
    (renderModelCard "model_a" c7Data modelAConfig = .ok c7Card ∧
     c7Card.headlineDetected = false ∧
     ∀ row ∈ c7Card.scoreRows, row.marker = true) := by
  refine ⟨?_, ?_, rfl, rfl, ?_⟩
  · intro key d cfg card detected h hdl
    obtain ⟨detected', entries, hdl', _, hcard⟩ := renderModelCard_ok_elim h
    rw [hdl] at hdl'
    injection hdl' with hdets
    subst hdets
    subst hcard
    rfl
  · intro key1 key2 d1 d2 cfg1 cfg2 card1 card2 h1 h2 hsame
    obtain ⟨det1, ents1, hdl1, _, hcard1⟩ := renderModelCard_ok_elim h1
    obtain ⟨det2, ents2, hdl2, _, hcard2⟩ := renderModelCard_ok_elim h2
    have hdet : detectedListOf d1 = detectedListOf d2 := by
      unfold detectedListOf getDetected
      rw [hsame]
    rw [hdl1, hdl2] at hdet
    injection hdet with hdets
    subst hdets
    subst hcard1
    subst hcard2
    rfl
  · intro row hrow
    simp only [c7Card, List.mem_singleton] at hrow
    subst hrow
    rfl

/-- Witness for C7: the headline of the rendered `c7Data` card agrees with
the emptiness of its detected list, and matches the headline of the
`c7Data2` card, which shares the detected field but has no confidences. -/
theorem claim7_headline_from_detected_only_witness :
    c7Card.headlineDetected = decide (0 < ([] : List Json).length) ∧
    c7Card.headlineDetected = c7Card2.headlineDetected :=
  ⟨claim7_headline_from_detected_only.1 "model_a" c7Data modelAConfig c7Card []
     claim7_headline_from_detected_only.2.2.1 rfl,
   claim7_headline_from_detected_only.2.1 "model_a" "model_a" c7Data c7Data2
     modelAConfig modelAConfig c7Card c7Card2
     claim7_headline_from_detected_only.2.2.1 rfl rfl⟩

/-- C8 counterexample: the stored value "{}" is present and parses as JSON
but lacks the expected structure; `init` then executes the image-binding
render step (both image sources get set) before the comparison step throws,
and only then notifies and redirects — and its notification differs from
the absent-slot notification.  So "no partial rendering" and "identical
path" fail for a present-but-malformed payload. -/
theorem claim8_partial_render_on_malformed :
    (resultsInit (.parsed (Json.obj []))).imagesRendered =
      some ("http://localhost:8000undefined", "http://localhost:8000undefined") ∧
    (resultsInit (.parsed (Json.obj []))).comparisonRendered = none ∧
    (resultsInit (.parsed (Json.obj []))).redirect = some "detection.html" ∧
    (resultsInit (.parsed (Json.obj []))).alerts ≠ (resultsInit .absent).alerts := by
  refine ⟨rfl, rfl, rfl, ?_⟩
  decide

/-- C8 as amended: an absent slot notifies (with the no-results message)
and redirects with nothing rendered; an unparseable slot notifies (with the
different load-error message) and redirects with nothing rendered; a parsed
payload on which the image step itself throws notifies and redirects with
nothing rendered; and a parsed payload on which the image step succeeds but
the comparison step throws has the images already rendered when the caught
error leads to the same notify-and-redirect.  No case escapes as an
unhandled throw. -/
theorem claim8_failure_paths :
    (resultsInit .absent =
      { alerts := [noResultsAlert], redirect := some "detection.html"
        imagesRendered := none, comparisonRendered := none }) ∧
    (∀ m : String, resultsInit (.unparseable m) =
      { alerts := [loadErrorAlert], redirect := some "detection.html"
        imagesRendered := none, comparisonRendered := none }) ∧
    (∀ (j : Json) (e : String), displayImages j = .error e →
      resultsInit (.parsed j) =
      { alerts := [loadErrorAlert], redirect := some "detection.html"
        imagesRendered := none, comparisonRendered := none }) ∧
    (∀ (j : Json) (imgs : String × String) (e : String),
      displayImages j = .ok imgs → displayModelComparison j = .error e →
      resultsInit (.parsed j) =
      { alerts := [loadErrorAlert], redirect := some "detection.html"
        imagesRendered := some imgs, comparisonRendered := none }) := by
  refine ⟨rfl, fun m => rfl, ?_, ?_⟩
  · intro j e h
    simp only [resultsInit]
    rw [h]
  · intro j imgs e h1 h2
    simp only [resultsInit]
    rw [h1, h2]

/-- Witness for the amended C8 on the "{}" payload. -/
theorem claim8_failure_paths_witness :
    resultsInit (.parsed (Json.obj [])) =
      { alerts := [loadErrorAlert], redirect := some "detection.html"
        imagesRendered := some ("http://localhost:8000undefined",
          "http://localhost:8000undefined")
        comparisonRendered := none } :=
  claim8_failure_paths.2.2.2 (Json.obj [])
    ("http://localhost:8000undefined", "http://localhost:8000undefined")
    "TypeError: Cannot read properties of undefined (reading model_a)" rfl rfl

/-- C10: a missing or falsy detected field is replaced by the empty list
(card headline not-detected, no badges), a missing or falsy confidences
field is replaced by the empty mapping (no score rows), and when both are
missing or falsy — in particular for a totally empty source object — the
card is still produced, with no error. -/
theorem claim10_missing_fields_default (key : String) (d : Json) (cfg : ModelConfig) :
    (fieldMissingOrFalsy d "detected" = true →
      detectedListOf d = .ok [] ∧
      ∀ card : RenderedCard, renderModelCard key d cfg = .ok card →
        card.headlineDetected = false ∧ card.detectedBadges = []) ∧
    (fieldMissingOrFalsy d "confidences" = true →
      confEntriesOf d = .ok [] ∧
      ∀ card : RenderedCard, renderModelCard key d cfg = .ok card →
        card.scoreRows = []) ∧
    (fieldMissingOrFalsy d "detected" = true →
      fieldMissingOrFalsy d "confidences" = true →
      renderModelCard key d cfg = .ok
        { modelKey := key, isEnsemble := key == "ensemble"
          title := cfg.title, badge := cfg.badge
          headlineDetected := false, detectedBadges := [], scoreRows := [] }) := by
  have hdet : fieldMissingOrFalsy d "detected" = true → detectedListOf d = .ok [] := by
    intro h
    unfold detectedListOf getDetected
    rw [jsOrDefault_of_missingOrFalsy d "detected" (Json.arr []) h]
    rfl
  have hconf : fieldMissingOrFalsy d "confidences" = true → confEntriesOf d = .ok [] := by
    intro h
    unfold confEntriesOf getConfidences
    rw [jsOrDefault_of_missingOrFalsy d "confidences" (Json.obj []) h]
    rfl
  refine ⟨?_, ?_, ?_⟩
  · intro h
    refine ⟨hdet h, ?_⟩
    intro card hc
    obtain ⟨detected, entries, hdl, _, hcard⟩ := renderModelCard_ok_elim hc
    rw [hdet h] at hdl
    injection hdl with hdets
    subst hdets
    subst hcard
    exact ⟨rfl, rfl⟩
  · intro h
    refine ⟨hconf h, ?_⟩
    intro card hc
    obtain ⟨detected, entries, _, hen, hcard⟩ := renderModelCard_ok_elim hc
    rw [hconf h] at hen
    injection hen with hents
    subst hents
    subst hcard
    rfl
  · intro h1 h2
    unfold renderModelCard
    rw [hdet h1, hconf h2]
    rfl

/-- Witness for C10 on the totally empty source object. -/
theorem claim10_missing_fields_default_witness :
    fieldMissingOrFalsy (Json.obj []) "detected" = true ∧
    fieldMissingOrFalsy (Json.obj []) "confidences" = true ∧
    renderModelCard "model_a" (Json.obj []) modelAConfig = .ok
      { modelKey := "model_a", isEnsemble := false
        title := "EfficientNet V2", badge := "Primary"
        headlineDetected := false, detectedBadges := [], scoreRows := [] } :=
  ⟨rfl, rfl,
   (claim10_missing_fields_default "model_a" (Json.obj []) modelAConfig).2.2 rfl rfl⟩

end ICHPage
